import Mathlib

/-!
Shallow embedding of `src/src/App.jsx` of the text2markdown-convertor
repository: the conversion controller's state, the fence-stripping
post-processing of the generation-service response, and the user
actions (convert, clear, toggle preview, copy to clipboard).
-/

namespace TextToMarkdown

/-- Characters matched by the JavaScript regex class `\s` (ECMA-262
WhiteSpace plus LineTerminator): tab, line feed, vertical tab, form
feed, carriage return, space, no-break space, Ogham space mark, the
U+2000..U+200A spaces, line separator, paragraph separator, narrow
no-break space, medium mathematical space, ideographic space, and the
byte-order mark. -/
def isJsWs (c : Char) : Bool :=
  c = '\t' || c = '\n' || c = '\x0b' || c = '\x0c' || c = '\r' || c = ' ' ||
  c = '\u00A0' || c = '\u1680' || ('\u2000' ≤ c && c ≤ '\u200A') ||
  c = '\u2028' || c = '\u2029' || c = '\u202F' || c = '\u205F' ||
  c = '\u3000' || c = '\uFEFF'

/-- The literal matched by the first regex alternative: a leading
"```markdown" fence marker (App.jsx line 86). -/
def leadMarker : List Char := "```markdown".toList

/-- The literal matched by the second regex alternative: a bare "```"
fence marker (App.jsx line 86). -/
def fence : List Char := "```".toList

/-!
App.jsx line 86 runs

  `const cleanedText = text.replace(/^```markdown\s*|\s*```$/g, "");`

Embedding of this call, derived from ECMAScript `String.replace` with a
global regex (neither the `m` nor the `s` flag is set):

* The first alternative `^```markdown\s*` is anchored at position 0, so
  over the whole scan it can match at most once, exactly when the text
  starts with the literal "```markdown"; the greedy `\s*` then extends
  the match over the maximal run of `\s` characters that follows the
  literal.  The scan resumes at the end of that match, i.e. on the
  remainder, which (if `\s*` consumed anything) starts with a
  non-whitespace character.
* The second alternative `\s*```$` must end at the end of the input, so
  it too can match at most once.  It matches from position `i` exactly
  when every character from `i` up to a terminal "```" is a `\s`
  character; the leftmost such `i` is the start of the maximal
  whitespace run immediately preceding the final "```".  Hence the
  alternative fires exactly when the remaining text ends with "```",
  and it removes that final "```" together with the maximal whitespace
  run just before it.
* Neither alternative can match the empty string (each requires literal
  backticks), and the first alternative never consumes a backtick
  beyond its literal (backticks are not `\s`), so the two removals are
  independent: the replacement result is the input with an optional
  leading-marker match and an optional trailing-fence match deleted.
-/

/-- Effect of the first regex alternative `^```markdown\s*` (replaced
by the empty string): if the text starts with the leading marker, drop
the marker and the whitespace run after it; otherwise no change. -/
def stripLeading (l : List Char) : List Char :=
  if leadMarker <+: l then (l.drop leadMarker.length).dropWhile isJsWs else l

/-- Effect of the second regex alternative `\s*```$` (replaced by the
empty string): if the text ends with a bare fence, drop that fence and
the whitespace run before it; otherwise no change. -/
def stripTrailing (l : List Char) : List Char :=
  if fence <:+ l then
    ((l.take (l.length - fence.length)).reverse.dropWhile isJsWs).reverse
  else l

/-- The whole replacement `text.replace(/^```markdown\s*|\s*```$/g, "")`
(App.jsx line 86): the leading-marker removal happens at position 0 and
the trailing-fence removal on the remainder. -/
def cleanedText (l : List Char) : List Char := stripTrailing (stripLeading l)

/-- String-level wrapper of `cleanedText`. -/
def cleanedTextStr (s : String) : String := ⟨cleanedText s.toList⟩

/-- One element of a candidate's `content.parts` array. -/
structure ResponsePart where
  text : String
deriving DecidableEq

/-- A candidate's `content` object; its `parts` array may be absent. -/
structure ResponseContent where
  parts : Option (List ResponsePart)
deriving DecidableEq

/-- One element of the response's `candidates` array; its `content`
object may be absent. -/
structure Candidate where
  content : Option ResponseContent
deriving DecidableEq

/-- The parsed JSON response; the `candidates` array may be absent. -/
structure ApiResult where
  candidates : Option (List Candidate)
deriving DecidableEq

/-- Outcome of `await fetch(...)` followed by `await response.json()`
(App.jsx lines 66-73): either a parsed result, or an exception carrying
its message (network or parse failure). -/
inductive FetchOutcome where
  | ok (result : ApiResult)
  | exn (message : String)

/-- The response-shape check and extraction of
`result.candidates[0].content.parts[0].text` (App.jsx lines 76-83):
`some` exactly when `candidates` exists and is non-empty, the first
candidate's `content` exists, and its `parts` exists and is non-empty. -/
def responseText (r : ApiResult) : Option String :=
  match r.candidates with
  | some (c :: _) =>
    match c.content with
    | some ct =>
      match ct.parts with
      | some (p :: _) => some p.text
      | some [] => none
      | none => none
    | none => none
  | some [] => none
  | none => none

/-- The component's `useState` fields (App.jsx lines 9-19). -/
structure AppState where
  inputText : String
  markdownOutput : String
  isLoading : Bool
  error : String
  copyButtonText : String
  showPreview : Bool
deriving DecidableEq

/-- The initial values of the `useState` hooks (App.jsx lines 9-19). -/
def initialState : AppState :=
  { inputText := "", markdownOutput := "", isLoading := false, error := "",
    copyButtonText := "Copy Markdown", showPreview := false }

/-- The `convertToMarkdown` handler (App.jsx lines 30-100).  It first
resets markdownOutput, error and copyButtonText, sets isLoading, and
resets showPreview (lines 32-36).  Prompt and payload construction
cannot throw, so the try block's only failure sources are the fetch and
the JSON parse, modelled by the `FetchOutcome` argument.  On a
well-shaped response the first part's text is fence-stripped and stored
(lines 83-87); on a malformed shape a fixed error is stored (line 90);
on an exception the error message wraps the exception's message
(line 95).  The `finally` clause clears isLoading (line 98). -/
def convertToMarkdown (s : AppState) (outcome : FetchOutcome) : AppState :=
  let started : AppState :=
    { s with markdownOutput := "", error := "", copyButtonText := "Copy Markdown",
             isLoading := true, showPreview := false }
  let finished : AppState :=
    match outcome with
    | .ok result =>
      match responseText result with
      | some text => { started with markdownOutput := cleanedTextStr text }
      | none =>
        { started with error := "Failed to generate Markdown. Please try again." }
    | .exn message => { started with error := "An error occurred: " ++ message }
  { finished with isLoading := false }

/-- The Clear All button's onClick handler (App.jsx lines 193-199). -/
def clearAll (s : AppState) : AppState :=
  { s with inputText := "", markdownOutput := "", error := "",
           copyButtonText := "Copy Markdown", showPreview := false }

/-- The preview toggle's onClick handler (App.jsx line 226):
`setShowPreview(!showPreview)`. -/
def togglePreview (s : AppState) : AppState :=
  { s with showPreview := !s.showPreview }

/-- Whether `document.execCommand("copy")` succeeds or throws. -/
inductive CopyOutcome where
  | success
  | failure

/-- The `copyToClipboard` handler (App.jsx lines 103-120).  The whole
body is guarded by `if (markdownOutput)` (truthy means non-empty).  On
success the button label becomes "Copied!" (the deferred 2-second reset
of the label is a later timer event, not part of this handler's
immediate effect); on a throw from execCommand the error is set and the
label untouched.  The returned flag records whether the clipboard path
(textarea creation and execCommand) ran at all. -/
def copyToClipboard (s : AppState) (o : CopyOutcome) : AppState × Bool :=
  if s.markdownOutput ≠ "" then
    match o with
    | .success => ({ s with copyButtonText := "Copied!" }, true)
    | .failure => ({ s with error := "Failed to copy text to clipboard." }, true)
  else (s, false)

/-- Dropping whitespace from the front of a list that starts with a
whitespace run continues into the rest of the list. -/
theorem dropWhile_ws_append (w t : List Char) (hw : ∀ x ∈ w, isJsWs x) :
    (w ++ t).dropWhile isJsWs = t.dropWhile isJsWs :=
  List.dropWhile_append_of_pos hw

/-- A list whose head (if any) is not whitespace is unchanged by
`dropWhile isJsWs`. -/
theorem dropWhile_ws_eq_self (l : List Char)
    (h : ∀ a, l.head? = some a → isJsWs a = false) :
    l.dropWhile isJsWs = l := by
  cases l with
  | nil => rfl
  | cons a t => simp [List.dropWhile_cons, h a rfl]

/-- The first alternative on a text that starts with the leading
marker: the marker is removed and the following whitespace run
consumed. -/
theorem stripLeading_marker (rest : List Char) :
    stripLeading (leadMarker ++ rest) = rest.dropWhile isJsWs := by
  unfold stripLeading
  rw [if_pos (List.prefix_append _ _), List.drop_left]

/-- The first alternative leaves a text that does not start with the
leading marker unchanged. -/
theorem stripLeading_no_marker (l : List Char) (h : ¬ leadMarker <+: l) :
    stripLeading l = l := by
  simp only [stripLeading, if_neg h]

/-- The second alternative on a text that ends with a bare fence: the
fence is removed and the whitespace run before it consumed. -/
theorem stripTrailing_fence (front : List Char) :
    stripTrailing (front ++ fence) = (front.reverse.dropWhile isJsWs).reverse := by
  unfold stripTrailing
  rw [if_pos (List.suffix_append _ _)]
  have hlen : (front ++ fence).length - fence.length = front.length := by
    rw [List.length_append, Nat.add_sub_cancel]
  rw [hlen, List.take_left]

/-- The second alternative leaves a text that does not end with a bare
fence unchanged. -/
theorem stripTrailing_no_fence (l : List Char) (h : ¬ fence <:+ l) :
    stripTrailing l = l := by
  simp only [stripTrailing, if_neg h]

/-- A text that neither starts with the leading marker nor ends with a
bare fence is unchanged by the fence-stripping transform. -/
theorem cleanedText_preserved (t : List Char)
    (h1 : ¬ leadMarker <+: t) (h2 : ¬ fence <:+ t) :
    cleanedText t = t := by
  unfold cleanedText
  rw [stripLeading_no_marker t h1, stripTrailing_no_fence t h2]

/-- A text of the full fenced form: the leading marker with trailing
whitespace and the bare fence with leading whitespace are removed, and
the fully-trimmed content in between is returned verbatim. -/
theorem cleanedText_fenced (ws1 ws2 c : List Char)
    (h1 : ∀ x ∈ ws1, isJsWs x) (h2 : ∀ x ∈ ws2, isJsWs x)
    (hhead : ∀ a, c.head? = some a → isJsWs a = false)
    (hlast : ∀ a, c.getLast? = some a → isJsWs a = false) :
    cleanedText (leadMarker ++ ws1 ++ c ++ ws2 ++ fence) = c := by
  have e1 : leadMarker ++ ws1 ++ c ++ ws2 ++ fence
      = leadMarker ++ (ws1 ++ (c ++ (ws2 ++ fence))) := by
    simp [List.append_assoc]
  rw [e1]
  unfold cleanedText
  rw [stripLeading_marker, dropWhile_ws_append ws1 _ h1]
  cases c with
  | nil =>
    rw [List.nil_append, dropWhile_ws_append ws2 _ h2,
      dropWhile_ws_eq_self fence (by decide)]
    have e2 : fence = ([] : List Char) ++ fence := rfl
    rw [e2, stripTrailing_fence]
    rfl
  | cons a t =>
    have ha : isJsWs a = false := hhead a rfl
    rw [List.cons_append, List.dropWhile_cons, ha]
    simp only [Bool.false_eq_true, if_false]
    have e3 : a :: (t ++ (ws2 ++ fence)) = ((a :: t) ++ ws2) ++ fence := by
      simp [List.append_assoc]
    rw [e3, stripTrailing_fence, List.reverse_append,
      dropWhile_ws_append ws2.reverse _ (by intro x hx; exact h2 x (List.mem_reverse.mp hx)),
      dropWhile_ws_eq_self (a :: t).reverse
        (by intro b hb; rw [List.head?_reverse] at hb; exact hlast b hb),
      List.reverse_reverse]

/-- C1: a response text consisting of the leading "```markdown" fence
marker, then content, then a trailing "```" fence marker — with
whitespace tolerated after the leading marker and before the trailing
one — is stored with both markers (and the adjacent whitespace) removed
and the content kept verbatim; each marker is optional and removed at
most once, and a text with neither a leading "```markdown" marker nor a
trailing "```" fence (a leading bare "```" without a language tag, or
fences strictly mid-text) is preserved verbatim. -/
theorem fence_stripping_spec :
    (∀ ws1 ws2 c : List Char,
      (∀ x ∈ ws1, isJsWs x) → (∀ x ∈ ws2, isJsWs x) →
      (∀ a, c.head? = some a → isJsWs a = false) →
      (∀ a, c.getLast? = some a → isJsWs a = false) →
      cleanedText (leadMarker ++ ws1 ++ c ++ ws2 ++ fence) = c)
    ∧ (∀ t : List Char, ¬ leadMarker <+: t → ¬ fence <:+ t →
        cleanedText t = t) :=
  ⟨cleanedText_fenced, cleanedText_preserved⟩

/-- Witness for C1: the fenced text "```markdown\nHello\n```" is
stripped to "Hello", and the text "a ``` b" with only a mid-text fence
is preserved verbatim. -/
theorem fence_stripping_spec_witness :
    cleanedText ("```markdown\nHello\n```".toList) = "Hello".toList
    ∧ cleanedText ("a ``` b".toList) = "a ``` b".toList := by
  constructor
  · have h := fence_stripping_spec.1 ['\n'] ['\n'] ("Hello".toList)
      (by decide) (by decide) (by decide) (by decide)
    have e : "```markdown\nHello\n```".toList
        = leadMarker ++ ['\n'] ++ "Hello".toList ++ ['\n'] ++ fence := by decide
    rw [e]
    exact h
  · exact fence_stripping_spec.2 ("a ``` b".toList) (by decide) (by decide)

/-- C3 counterexample: the fence-stripping transform is not idempotent.
On six backticks one application removes only the trailing fence,
leaving three backticks, and a second application removes those as
well, so applying the transform to its own output does not always yield
that output again. -/
theorem cleanedText_not_idempotent :
    ¬ cleanedTextStr (cleanedTextStr "``````") = cleanedTextStr "``````" := by
  decide

/-- C3 amended: the transform returns every string containing no fence
marker (no occurrence of "```") unchanged; and applying the transform
twice agrees with applying it once on every string whose once-stripped
output does not itself again start with the "```markdown" marker or end
with a bare "```" fence — but not in general, as six backticks show. -/
theorem cleanedText_idempotent_guarded :
    (∀ l : List Char, ¬ fence <:+: l → cleanedText l = l)
    ∧ (∀ l : List Char, ¬ leadMarker <+: cleanedText l →
        ¬ fence <:+ cleanedText l →
        cleanedText (cleanedText l) = cleanedText l) := by
  constructor
  · intro l h
    apply cleanedText_preserved
    · intro hp
      exact h (((by decide : fence <+: leadMarker).trans hp).isInfix)
    · intro hs
      exact h hs.isInfix
  · intro l h1 h2
    exact cleanedText_preserved (cleanedText l) h1 h2

/-- Witness for the amended C3: a fence-free string is unchanged, and a
string whose stripped form is fence-free strips to the same thing
twice. -/
theorem cleanedText_idempotent_guarded_witness :
    cleanedText ("hello world".toList) = "hello world".toList
    ∧ cleanedText (cleanedText ("```markdown\nHi\n```".toList))
        = cleanedText ("```markdown\nHi\n```".toList) := by
  constructor
  · exact cleanedText_idempotent_guarded.1 ("hello world".toList) (by decide)
  · exact cleanedText_idempotent_guarded.2 ("```markdown\nHi\n```".toList)
      (by decide) (by decide)

/-- The mocked well-formed response whose single candidate's first part
text is "```markdown\nHello\n```". -/
def helloResponse : ApiResult :=
  { candidates := some
      [{ content := some { parts := some [{ text := "```markdown\nHello\n```" }] } }] }

/-- C2: for any state with non-empty input text, converting with the
well-formed single-candidate response whose first part text is
"```markdown\nHello\n```" stores exactly "Hello" as markdownOutput. -/
theorem convert_hello (s : AppState) (_h : s.inputText ≠ "") :
    (convertToMarkdown s (.ok helloResponse)).markdownOutput = "Hello" := by
  simp only [convertToMarkdown, responseText, helloResponse]
  decide

/-- Witness for C2 at a concrete state with input "x". -/
theorem convert_hello_witness :
    (convertToMarkdown { initialState with inputText := "x" }
      (.ok helloResponse)).markdownOutput = "Hello" :=
  convert_hello { initialState with inputText := "x" } (by decide)

/-- C4: every conversion attempt ends with isLoading false, in all
three outcomes — success, structural response error, and
transport/parse exception — so the finally-clause cleanup runs on every
exit path. -/
theorem isLoading_cleared (s : AppState) (o : FetchOutcome) :
    (convertToMarkdown s o).isLoading = false := by
  cases o with
  | ok r => cases hr : responseText r <;> simp [convertToMarkdown, hr]
  | exn m => simp [convertToMarkdown]

/-- C5: on every response missing the expected shape the conversion
ends with the fixed user-facing error message, an empty markdownOutput,
the input text untouched, and the remaining fields at the values the
conversion's opening resets gave them — no other action is taken. -/
theorem structural_error_state (s : AppState) (r : ApiResult)
    (h : responseText r = none) :
    convertToMarkdown s (.ok r) =
      { inputText := s.inputText, markdownOutput := "", isLoading := false,
        error := "Failed to generate Markdown. Please try again.",
        copyButtonText := "Copy Markdown", showPreview := false } := by
  simp [convertToMarkdown, h]

/-- Witness for C5 at the empty-candidates response. -/
theorem structural_error_state_witness :
    convertToMarkdown initialState (.ok { candidates := some [] }) =
      { inputText := "", markdownOutput := "", isLoading := false,
        error := "Failed to generate Markdown. Please try again.",
        copyButtonText := "Copy Markdown", showPreview := false } :=
  structural_error_state initialState { candidates := some [] } rfl

/-- C6: on every exception raised during the call or response parsing,
the conversion sets the error to a message containing the failure's
description and leaves markdownOutput empty. -/
theorem transport_error_state (s : AppState) (msg : String) :
    (convertToMarkdown s (.exn msg)).error = "An error occurred: " ++ msg
    ∧ (convertToMarkdown s (.exn msg)).markdownOutput = "" := by
  simp [convertToMarkdown]

/-- C7: from every prior state, Clear All resets inputText,
markdownOutput, error, copyButtonText and showPreview to their initial
values. -/
theorem clearAll_resets (s : AppState) :
    (clearAll s).inputText = initialState.inputText
    ∧ (clearAll s).markdownOutput = initialState.markdownOutput
    ∧ (clearAll s).error = initialState.error
    ∧ (clearAll s).copyButtonText = initialState.copyButtonText
    ∧ (clearAll s).showPreview = initialState.showPreview := by
  simp [clearAll, initialState]

/-- C8: toggling the preview twice returns showPreview to its original
value, and neither the first nor the second application changes
markdownOutput. -/
theorem togglePreview_involutive (s : AppState) :
    (togglePreview (togglePreview s)).showPreview = s.showPreview
    ∧ (togglePreview s).markdownOutput = s.markdownOutput
    ∧ (togglePreview (togglePreview s)).markdownOutput = s.markdownOutput := by
  simp [togglePreview]

/-- C9: when the copy action fails with markdownOutput non-empty, the
error becomes the fixed clipboard-failure message and the copy button
label is left unchanged. -/
theorem copy_failure_state (s : AppState) (h : s.markdownOutput ≠ "") :
    (copyToClipboard s .failure).1.error = "Failed to copy text to clipboard."
    ∧ (copyToClipboard s .failure).1.copyButtonText = s.copyButtonText := by
  simp [copyToClipboard, h]

/-- Witness for C9 at a state whose markdownOutput is "x". -/
theorem copy_failure_state_witness :
    (copyToClipboard { initialState with markdownOutput := "x" } .failure).1.error
        = "Failed to copy text to clipboard."
    ∧ (copyToClipboard { initialState with markdownOutput := "x" } .failure).1.copyButtonText
        = "Copy Markdown" :=
  copy_failure_state { initialState with markdownOutput := "x" } (by decide)

/-- C10: when markdownOutput is empty the copy action is a no-op — the
state is returned unchanged in every field, for either clipboard
outcome, and the clipboard path is never entered. -/
theorem copy_noop_when_empty (s : AppState) (o : CopyOutcome)
    (h : s.markdownOutput = "") :
    copyToClipboard s o = (s, false) := by
  simp [copyToClipboard, h]

/-- Witness for C10 at the initial state. -/
theorem copy_noop_when_empty_witness :
    copyToClipboard initialState .success = (initialState, false) :=
  copy_noop_when_empty initialState .success rfl

end TextToMarkdown
